import Mathlib

/-!
Shallow embedding of the Checkend Browser SDK notice-delivery pipeline
(configuration, notice normalization, HTTP client with queue, orchestrator),
together with theorems settling the specification claims.

Modelling conventions:
* JavaScript strings are Lean `String`; string length counts characters
  (the source counts UTF-16 units, an identical notion for the inputs at stake).
* JavaScript object bags (`context`, `request`, `user`) are modeled as
  association lists `KV`; object spread-merge `{...a, ...b}` is modeled as
  list append (right entries shadow left ones on read, which no claim inspects).
* Browser ambience (`window`, `navigator`, the clock, network outcomes) is
  passed explicitly as environment records.
* Exceptions never escape the modeled functions (the source catches them);
  fallible operations return `Option`.
-/

namespace Checkend

/-- Key-value bag standing in for a JavaScript object of arbitrary values. -/
abbrev KV := List (String × String)

/-- A JavaScript `Error`-like object: `name`, `message`, optional `stack`.
An absent (`undefined`) string field is modeled as `""` for `name`/`message`
(the source only ever tests their truthiness) and as `none` for `stack`. -/
structure JsError where
  name : String
  message : String
  stack : Option String
deriving DecidableEq

/-- Notice record (src `types.ts`, interface `Notice`). -/
structure Notice where
  errorClass : String
  message : String
  backtrace : List String
  fingerprint : Option String
  tags : List String
  context : KV
  request : KV
  user : KV
  environment : Option String
  occurredAt : String
deriving DecidableEq

/-- Outcome of invoking a `beforeNotify` callback: the explicit value `false`,
any other return value (`true` or `undefined`), or a raised exception
(always caught by the runner). -/
inductive CbResult
  | vetoFalse
  | pass
  | threw (message : String)
deriving DecidableEq

/-- `BeforeNotifyCallback` (src `types.ts`). -/
abbrev BeforeNotifyCallback := Notice → CbResult

-- ===== configuration.ts =====

def DEFAULT_ENDPOINT : String := "https://app.checkend.io"

def DEFAULT_FILTER_KEYS : List String :=
  ["password", "password_confirmation", "passwd", "secret", "token",
   "api_key", "apiKey", "access_token", "accessToken", "refresh_token",
   "refreshToken", "authorization", "bearer", "credit_card", "creditCard",
   "card_number", "cardNumber", "cvv", "cvc", "ssn"]

/-- An ignore-list entry: an exact string, or a regular expression modeled by
its (total, boolean) matching function. -/
inductive IgnorePattern
  | str (s : String)
  | regex (test : String → Bool)

/-- Matching function of the source regex `/^Script error\.?$/`
(anchored at both ends, the dot optional). -/
def scriptErrorRegexTest (s : String) : Bool :=
  s == "Script error" || s == "Script error."

def DEFAULT_IGNORED_EXCEPTIONS : List IgnorePattern :=
  [.str "ResizeObserver loop limit exceeded",
   .str "ResizeObserver loop completed with undelivered notifications",
   .regex scriptErrorRegexTest]

/-- `ConfigOptions` (src `types.ts`): every optional field is `Option`. -/
structure ConfigOptions where
  apiKey : String
  endpoint : Option String := none
  environment : Option String := none
  enabled : Option Bool := none
  timeout : Option Nat := none
  ignoredExceptions : Option (List IgnorePattern) := none
  filterKeys : Option (List String) := none
  beforeNotify : Option (List BeforeNotifyCallback) := none
  debug : Option Bool := none
  captureUnhandled : Option Bool := none
  captureUnhandledRejections : Option Bool := none
  maxQueueSize : Option Nat := none
  useSendBeacon : Option Bool := none

/-- Browser ambience seen by `Configuration.detectEnvironment`:
`none` models `typeof window === 'undefined'`; otherwise the value of
`window.location?.hostname ?? ''`. -/
structure BrowserEnv where
  hostname : Option String

/-- `String.prototype.includes`: does `haystack` contain `needle` as a
contiguous substring? -/
def containsSub (haystack needle : List Char) : Bool :=
  match haystack with
  | [] => needle.isEmpty
  | _ :: rest => needle.isPrefixOf haystack || containsSub rest needle

/-- `Configuration.detectEnvironment` (private method; takes the browser
ambience explicitly). -/
def detectEnvironment (benv : BrowserEnv) : String :=
  match benv.hostname with
  | none => "production"
  | some hostname =>
    if hostname == "localhost" || hostname == "127.0.0.1" then "development"
    else if containsSub hostname.toList "staging".toList
         || containsSub hostname.toList "stage".toList then "staging"
    else "production"

/-- Settled `Configuration` object. -/
structure Configuration where
  apiKey : String
  endpoint : String
  environment : String
  _enabled : Option Bool
  timeout : Nat
  ignoredExceptions : List IgnorePattern
  filterKeys : List String
  beforeNotify : List BeforeNotifyCallback
  debug : Bool
  captureUnhandled : Bool
  captureUnhandledRejections : Bool
  maxQueueSize : Nat
  useSendBeacon : Bool

/-- The `Configuration` constructor. -/
def Configuration.create (benv : BrowserEnv) (options : ConfigOptions) : Configuration :=
  { apiKey := options.apiKey
    endpoint := options.endpoint.getD DEFAULT_ENDPOINT
    environment := options.environment.getD (detectEnvironment benv)
    _enabled := options.enabled
    timeout := options.timeout.getD 15000
    ignoredExceptions := DEFAULT_IGNORED_EXCEPTIONS ++ options.ignoredExceptions.getD []
    filterKeys := DEFAULT_FILTER_KEYS ++ options.filterKeys.getD []
    beforeNotify := options.beforeNotify.getD []
    debug := options.debug.getD false
    captureUnhandled := options.captureUnhandled.getD true
    captureUnhandledRejections := options.captureUnhandledRejections.getD true
    maxQueueSize := options.maxQueueSize.getD 100
    useSendBeacon := options.useSendBeacon.getD true }

/-- `Configuration.isValid`: `Boolean(this.apiKey && this.endpoint)`
(truthiness of a string is non-emptiness). -/
def Configuration.isValid (c : Configuration) : Bool :=
  c.apiKey != "" && c.endpoint != ""

def Configuration.isProductionOrStaging (c : Configuration) : Bool :=
  ["production", "staging"].contains c.environment

/-- The `enabled` getter. -/
def Configuration.enabled (c : Configuration) : Bool :=
  match c._enabled with
  | some b => b
  | none => c.isProductionOrStaging

/-- One pattern of the ignore-list tested against an error class and message. -/
def IgnorePattern.matches (p : IgnorePattern) (errorClass message : String) : Bool :=
  match p with
  | .str s => errorClass == s || message == s
  | .regex test => test errorClass || test message

/-- `Configuration.shouldIgnore`. -/
def Configuration.shouldIgnore (c : Configuration) (errorClass message : String) : Bool :=
  c.ignoredExceptions.any (fun p => p.matches errorClass message)

/-- The `ingestUrl` getter. -/
def Configuration.ingestUrl (c : Configuration) : String :=
  c.endpoint ++ "/ingest/v1/errors"

-- ===== notice.ts =====

def MAX_BACKTRACE_LINES : Nat := 100

def MAX_MESSAGE_LENGTH : Nat := 10000

/-- `truncateMessage`: cap the message at `MAX_MESSAGE_LENGTH`, replacing
overflow with a truncated prefix plus `"..."`.  (`!message` is true exactly
for the empty string.) -/
def truncateMessage (message : String) : String :=
  if message = "" then ""
  else if message.length ≤ MAX_MESSAGE_LENGTH then message
  else String.mk (message.data.take (MAX_MESSAGE_LENGTH - 3) ++ "...".data)

/-- `String.prototype.trim` on the character list: strip leading and trailing
whitespace. -/
def trimChars (l : List Char) : List Char :=
  ((l.dropWhile Char.isWhitespace).reverse.dropWhile Char.isWhitespace).reverse

/-- `String.prototype.trim`. -/
def trimString (s : String) : String :=
  String.mk (trimChars s.data)

/-- `String.prototype.startsWith`. -/
def startsWithStr (s p : String) : Bool :=
  p.data.isPrefixOf s.data

/-- Split a character list on a separator character; `split` semantics of
JavaScript: the empty string yields one empty piece, a trailing separator a
trailing empty piece. -/
def splitOnChar (sep : Char) : List Char → List (List Char)
  | [] => [[]]
  | c :: rest =>
    let r := splitOnChar sep rest
    if c == sep then [] :: r
    else
      match r with
      | [] => [[c]]
      | h :: t => (c :: h) :: t

/-- `stack.split('\n')`. -/
def splitLines (s : String) : List String :=
  (splitOnChar (Char.ofNat 10) s.data).map String.mk

/-- JavaScript word character, `\w` = `[A-Za-z0-9_]`. -/
def isWordChar (c : Char) : Bool :=
  c.isAlphanum || c == '_'

/-- Matching function of `/^\s*\w+@/` under `RegExp.test` (anchored at the
start only). -/
def regexWordAtTest (t : String) : Bool :=
  let l := t.data.dropWhile Char.isWhitespace
  let w := l.takeWhile isWordChar
  !w.isEmpty && ((l.drop w.length).head? == some '@')

/-- Matching function of `/^\s*@/` under `RegExp.test`. -/
def regexAtTest (t : String) : Bool :=
  (t.data.dropWhile Char.isWhitespace).head? == some '@'

/-- The frame-marker test of `parseBacktrace`: keep lines whose trimmed form
starts with `"at "`, or matches `/^\s*\w+@/`, or matches `/^\s*@/`. -/
def isFrameLine (line : String) : Bool :=
  let trimmed := trimString line
  startsWithStr trimmed "at " || regexWordAtTest trimmed || regexAtTest trimmed

/-- `parseBacktrace`: split the stack string into lines, keep frame-marker
lines (trimmed, capped at 100); if none match, fall back to the non-empty
trimmed forms of the first 100 lines.  `!stack` is true for an absent stack
and for the empty string; both yield `[]`. -/
def parseBacktrace (stack : Option String) : List String :=
  match stack with
  | none => []
  | some stack =>
    if stack = "" then []
    else
      let lines := splitLines stack
      let frames := ((lines.filter isFrameLine).map trimString).take MAX_BACKTRACE_LINES
      if frames.isEmpty then
        ((lines.take MAX_BACKTRACE_LINES).map trimString).filter (fun l => l != "")
      else frames

/-- Option bag accepted by `createNotice` / `createNoticeFromRaw`. -/
structure NoticeOptions where
  context : Option KV := none
  request : Option KV := none
  user : Option KV := none
  fingerprint : Option String := none
  tags : Option (List String) := none
  environment : Option String := none

/-- `createNotice` (the ISO-8601 timestamp of `new Date()` is passed in as
`occurredAt`). -/
def createNotice (error : JsError) (options : NoticeOptions) (occurredAt : String) : Notice :=
  { errorClass := if error.name = "" then "Error" else error.name
    message := truncateMessage (if error.message = "" then "Unknown error" else error.message)
    backtrace := parseBacktrace error.stack
    fingerprint := options.fingerprint
    tags := options.tags.getD []
    context := options.context.getD []
    request := options.request.getD []
    user := options.user.getD []
    environment := options.environment
    occurredAt := occurredAt }

/-- `createNoticeFromRaw` (for `window.onerror` input).  A present `error`
object wins; otherwise a truthy (non-empty) `source` yields the single
synthesized frame `"<source>:<lineno ?? 0>:<colno ?? 0>"`. -/
def createNoticeFromRaw (message : String) (source : Option String)
    (lineno colno : Option Nat) (error : Option JsError)
    (options : NoticeOptions) (occurredAt : String) : Notice :=
  let backtrace : List String :=
    match error with
    | some e => parseBacktrace e.stack
    | none =>
      match source with
      | some src =>
        if src = "" then []
        else [src ++ ":" ++ toString (lineno.getD 0) ++ ":" ++ toString (colno.getD 0)]
      | none => []
  let errorClass : String :=
    match error with
    | some e => if e.name = "" then "Error" else e.name
    | none => "Error"
  { errorClass := errorClass
    message := truncateMessage message
    backtrace := backtrace
    fingerprint := options.fingerprint
    tags := options.tags.getD []
    context := options.context.getD []
    request := options.request.getD []
    user := options.user.getD []
    environment := options.environment
    occurredAt := occurredAt }

/-- Library version (src `version.ts`, not under `src/`).
Modelled from the spec: §6 only requires a version string on the notifier;
the concrete value is irrelevant to every claim. -/
def VERSION : String := "0.1.0"

structure Notifier where
  name : String
  version : String
  language : String
  language_version : String
deriving DecidableEq

/-- Wire shape of the error group (field `class` renamed `errorClass`:
`class` is a Lean keyword). -/
structure ErrorPayload where
  errorClass : String
  message : String
  backtrace : List String
  occurred_at : String
  fingerprint : Option String
  tags : Option (List String)
deriving DecidableEq

structure NoticePayload where
  error : ErrorPayload
  context : KV
  request : KV
  user : KV
  notifier : Notifier
deriving DecidableEq

/-- `toPayload`.  `getJsVersion()` probes `navigator.userAgent`; it is modeled
by its browser-absent fallback `"unknown"` (no claim touches it). -/
def toPayload (notice : Notice) : NoticePayload :=
  let notifier : Notifier :=
    { name := "@checkend/browser"
      version := VERSION
      language := "javascript"
      language_version := "unknown" }
  { error :=
      { errorClass := notice.errorClass
        message := notice.message
        backtrace := notice.backtrace
        occurred_at := notice.occurredAt
        fingerprint := notice.fingerprint
        tags := if notice.tags.length > 0 then some notice.tags else none }
    context := notice.context ++ (match notice.environment with
      | some e => [("environment", e)]
      | none => [])
    request := notice.request
    user := notice.user
    notifier := notifier }

-- ===== client.ts =====

/-- `ApiResponse` (src `types.ts`). -/
structure ApiResponse where
  id : Int
  problem_id : Int
deriving DecidableEq

/-- A resolved `fetch` response: its status, the parse of its JSON body
(read only when the status is 201), and its text body (read otherwise). -/
structure FetchResponse where
  status : Nat
  body : ApiResponse
  text : String
deriving DecidableEq

/-- Outcome of one `fetch` call as supplied by the network environment:
a resolved response, the timeout abort (`AbortError`), or any other
transport-level failure. -/
inductive FetchOutcome
  | response (r : FetchResponse)
  | abortTimeout
  | networkError (message : String)
deriving DecidableEq

inductive LogLevel
  | debug
  | warn
  | error
deriving DecidableEq

abbrev LogEntry := LogLevel × String

/-- `Client.handleResponse`: 201 parses and returns the acknowledgment;
every other status logs at its severity and yields no value. -/
def handleResponse (debug : Bool) (response : FetchResponse) :
    Option ApiResponse × List LogEntry :=
  let status := response.status
  if status = 201 then
    (some response.body,
     if debug then [(LogLevel.debug, "Notice sent successfully")] else [])
  else
    let body := response.text
    let logs : List LogEntry :=
      if status = 400 then [(.warn, "Bad request: " ++ body)]
      else if status = 401 then [(.error, "Authentication failed - check your API key")]
      else if status = 422 then [(.warn, "Invalid notice payload: " ++ body)]
      else if status = 429 then [(.warn, "Rate limited by server - backing off")]
      else if status ≥ 500 then [(.error, "Server error: " ++ toString status ++ " - " ++ body)]
      else [(.error, "Unexpected response: " ++ toString status ++ " - " ++ body)]
    (none, logs)

/-- `Client.sendViaFetch`: the whole attempt is wrapped in try/catch, so a
timeout abort or network error is converted into `none`, never re-raised. -/
def sendViaFetch (debug : Bool) (outcome : FetchOutcome) :
    Option ApiResponse × List LogEntry :=
  match outcome with
  | .response r => handleResponse debug r
  | .abortTimeout => (none, [(.error, "Request timeout")])
  | .networkError e => (none, [(.error, "Failed to send notice: " ++ e)])

/-- How the `navigator.sendBeacon` probe of `Client.trySendBeacon` goes:
the primitive is missing, the call throws (caught, yielding `false`), or it
returns a boolean. -/
inductive BeaconStatus
  | unavailable
  | throws
  | accepted
  | rejected
deriving DecidableEq

/-- `Client.trySendBeacon`: `false` when the primitive is missing or throws,
otherwise `navigator.sendBeacon`'s boolean. -/
def trySendBeacon (st : BeaconStatus) : Bool :=
  match st with
  | .accepted => true
  | _ => false

/-- Which transport carried a payload. -/
inductive Transport
  | beacon
  | fetchTransport
deriving DecidableEq

/-- One transmission performed by the client: the payload put on the wire and
the transport that carried it. -/
structure Transmission where
  payload : NoticePayload
  transport : Transport
deriving DecidableEq

/-- Network ambience seen by the client. -/
structure TransportEnv where
  beacon : BeaconStatus
  fetchOutcome : NoticePayload → FetchOutcome

/-- Mutable state of a `Client`: the bounded queue and the `sending`
(drain-active) flag. -/
structure ClientState where
  queue : List NoticePayload
  sending : Bool
deriving DecidableEq

/-- `Client.sendNotice`: encode, try `sendBeacon` first when configuration
permits; acceptance completes the transmission with no fallback and no
response; otherwise fall back to `fetch`.  Returns the fetch result (if any)
and the transmission performed. -/
def Client.sendNotice (cfg : Configuration) (env : TransportEnv) (notice : Notice) :
    Option ApiResponse × List Transmission :=
  let payload := toPayload notice
  if cfg.useSendBeacon && trySendBeacon env.beacon then
    (none, [{ payload := payload, transport := Transport.beacon }])
  else
    ((sendViaFetch cfg.debug (env.fetchOutcome payload)).1,
     [{ payload := payload, transport := Transport.fetchTransport }])

/-- `Client.processQueue`: if a drain is active (`sending`) or the queue is
empty, return immediately; otherwise mark `sending`, pop the head and send it
via `sendViaFetch` (result discarded) until the queue is empty, then clear
`sending`.  The sequential model runs the drain to completion: the returned
list is the transmissions performed, in pop order, every one via `fetch`. -/
def Client.processQueue (cfg : Configuration) (env : TransportEnv) (s : ClientState) :
    ClientState × List Transmission :=
  if s.sending || s.queue.isEmpty then (s, [])
  else
    ({ queue := [], sending := false },
     s.queue.map (fun p =>
       let _ := sendViaFetch cfg.debug (env.fetchOutcome p)
       { payload := p, transport := Transport.fetchTransport }))

/-- `Client.queueNotice`: reject (drop) when the queue already holds
`maxQueueSize` payloads; otherwise append the encoded payload to the tail and
trigger a drain attempt. -/
def Client.queueNotice (cfg : Configuration) (env : TransportEnv) (s : ClientState)
    (notice : Notice) : Bool × ClientState × List Transmission :=
  if s.queue.length ≥ cfg.maxQueueSize then (false, s, [])
  else
    let payload := toPayload notice
    let r := Client.processQueue cfg env { s with queue := s.queue ++ [payload] }
    (true, r.1, r.2)

/-- `Client.flush`: loop on `processQueue` until the queue is empty.  In the
sequential model a single `processQueue` call with no drain active already
empties the queue, so the source's while loop performs one iteration;
with a drain active the loop defers to that drain. -/
def Client.flush (cfg : Configuration) (env : TransportEnv) (s : ClientState) :
    ClientState × List Transmission :=
  Client.processQueue cfg env s

-- ===== index.ts (orchestrator) =====

/-- Module-level state of the SDK entry points. -/
structure SdkState where
  started : Bool
  config : Option Configuration
  hasClient : Bool
  globalContext : KV
  globalUser : KV
  client : ClientState

/-- `shouldNotify`: started, configured with a client, valid, enabled. -/
def shouldNotify (s : SdkState) : Bool :=
  match s.config with
  | none => false
  | some config =>
    if !s.started || !s.hasClient then false
    else if !config.isValid then false
    else if !config.enabled then false
    else true

/-- `runBeforeNotifyCallbacks`, instrumented: returns
(proceed, number of callbacks invoked, number of warnings logged).
A callback returning the explicit value `false` halts with `proceed = false`;
a raising callback is caught, logged as a warning, and iteration continues. -/
def runBeforeNotifyCallbacks (callbacks : List BeforeNotifyCallback) (notice : Notice) :
    Bool × Nat × Nat :=
  match callbacks with
  | [] => (true, 0, 0)
  | callback :: rest =>
    match callback notice with
    | .vetoFalse => (false, 1, 0)
    | .pass =>
      let r := runBeforeNotifyCallbacks rest notice
      (r.1, r.2.1 + 1, r.2.2)
    | .threw _ =>
      let r := runBeforeNotifyCallbacks rest notice
      (r.1, r.2.1 + 1, r.2.2 + 1)

/-- `NotifyOptions` (src `types.ts`). -/
structure NotifyOptions where
  context : Option KV := none
  request : Option KV := none
  user : Option KV := none
  fingerprint : Option String := none
  tags : Option (List String) := none

/-- Ambience for the orchestrator entry points: the network, the sanitize
filter (src `filters/sanitize.ts`, not under `src/` — an external pure
transform per spec §4.2), the captured request info, and the clock. -/
structure NotifyEnv where
  transport : TransportEnv
  sanitize : KV → KV
  capturedRequest : KV
  occurredAt : String

/-- Pipeline events observed while an entry point runs, in execution order. -/
inductive Step
  | checkedActive
  | checkedIgnore
  | sanitized
  | normalized
  | ranCallbacks
  | enqueued
  | sentSync
deriving DecidableEq

/-- `notify`: gate on `shouldNotify`, check the ignore-list, merge+sanitize,
normalize, run interceptors, then enqueue.  Returns the new state, the
transmissions performed, and the trace of pipeline events. -/
def notify (env : NotifyEnv) (s : SdkState) (error : JsError) (options : NotifyOptions) :
    SdkState × List Transmission × List Step :=
  if !shouldNotify s then (s, [], [Step.checkedActive])
  else
    match s.config with
    | none => (s, [], [Step.checkedActive])
    | some cfg =>
      let errorClass := if error.name = "" then "Error" else error.name
      let message := if error.message = "" then "Unknown error" else error.message
      if cfg.shouldIgnore errorClass message then
        (s, [], [Step.checkedActive, Step.checkedIgnore])
      else
        let mergedContext := env.sanitize (s.globalContext ++ options.context.getD [])
        let mergedUser := env.sanitize (s.globalUser ++ options.user.getD [])
        let request := env.sanitize (options.request.getD env.capturedRequest)
        let notice := createNotice error
          { context := some mergedContext, request := some request, user := some mergedUser,
            fingerprint := options.fingerprint, tags := options.tags,
            environment := some cfg.environment } env.occurredAt
        let cb := runBeforeNotifyCallbacks cfg.beforeNotify notice
        if !cb.1 then
          (s, [], [Step.checkedActive, Step.checkedIgnore, Step.sanitized,
                   Step.normalized, Step.ranCallbacks])
        else
          let r := Client.queueNotice cfg env.transport s.client notice
          ({ s with client := r.2.1 }, r.2.2,
           [Step.checkedActive, Step.checkedIgnore, Step.sanitized,
            Step.normalized, Step.ranCallbacks, Step.enqueued])

/-- `notifySync`: gate on `shouldNotify`, merge+sanitize, normalize, run
interceptors, then send-and-await via `Client.sendNotice`.  The source
performs no ignore-list check on this path, so no `checkedIgnore` event ever
appears in its trace. -/
def notifySync (env : NotifyEnv) (s : SdkState) (error : JsError) (options : NotifyOptions) :
    Option ApiResponse × List Transmission × List Step :=
  if !shouldNotify s then (none, [], [Step.checkedActive])
  else
    match s.config with
    | none => (none, [], [Step.checkedActive])
    | some cfg =>
      let mergedContext := env.sanitize (s.globalContext ++ options.context.getD [])
      let mergedUser := env.sanitize (s.globalUser ++ options.user.getD [])
      let request := env.sanitize (options.request.getD env.capturedRequest)
      let notice := createNotice error
        { context := some mergedContext, request := some request, user := some mergedUser,
          fingerprint := options.fingerprint, tags := options.tags,
          environment := some cfg.environment } env.occurredAt
      let cb := runBeforeNotifyCallbacks cfg.beforeNotify notice
      if !cb.1 then
        (none, [], [Step.checkedActive, Step.sanitized, Step.normalized, Step.ranCallbacks])
      else
        let r := Client.sendNotice cfg env.transport notice
        (r.1, r.2,
         [Step.checkedActive, Step.sanitized, Step.normalized,
          Step.ranCallbacks, Step.sentSync])

/-- `handleUnhandledError` (the `window.onerror` path): same pipeline, with
the notice synthesized from the raw signal, the class/message for the
ignore check taken as `error?.name ?? 'Error'` and the raw message, and the
`unhandled` tag forced. -/
def handleUnhandledError (env : NotifyEnv) (s : SdkState) (message : String)
    (source : Option String) (lineno colno : Option Nat) (error : Option JsError) :
    SdkState × List Transmission :=
  if !shouldNotify s then (s, [])
  else
    match s.config with
    | none => (s, [])
    | some cfg =>
      if cfg.shouldIgnore ((error.map JsError.name).getD "Error") message then (s, [])
      else
        let request := env.sanitize env.capturedRequest
        let context := env.sanitize (s.globalContext ++ [("unhandled", "true")])
        let user := env.sanitize s.globalUser
        let notice := createNoticeFromRaw message source lineno colno error
          { context := some context, request := some request, user := some user,
            fingerprint := none, tags := some ["unhandled"],
            environment := some cfg.environment } env.occurredAt
        let cb := runBeforeNotifyCallbacks cfg.beforeNotify notice
        if !cb.1 then (s, [])
        else
          let r := Client.queueNotice cfg env.transport s.client notice
          ({ s with client := r.2.1 }, r.2.2)

/-- The reason carried by an unhandled promise rejection event. -/
inductive RejectionReason
  | errorReason (e : JsError)
  | stringReason (s : String)
  | otherReason

/-- `handleUnhandledRejection`: normalize a non-Error reason into a synthetic
error, then the same pipeline with the `unhandled`/`promise-rejection` tags. -/
def handleUnhandledRejection (env : NotifyEnv) (s : SdkState) (reason : RejectionReason) :
    SdkState × List Transmission :=
  if !shouldNotify s then (s, [])
  else
    match s.config with
    | none => (s, [])
    | some cfg =>
      let error : JsError :=
        match reason with
        | .errorReason e => e
        | .stringReason str =>
          { name := "UnhandledRejection", message := str, stack := none }
        | .otherReason =>
          { name := "UnhandledRejection", message := "Unhandled Promise rejection",
            stack := none }
      if cfg.shouldIgnore error.name error.message then (s, [])
      else
        let request := env.sanitize env.capturedRequest
        let context := env.sanitize
          (s.globalContext ++ [("unhandled", "true"), ("rejection", "true")])
        let user := env.sanitize s.globalUser
        let notice := createNotice error
          { context := some context, request := some request, user := some user,
            fingerprint := none, tags := some ["unhandled", "promise-rejection"],
            environment := some cfg.environment } env.occurredAt
        let cb := runBeforeNotifyCallbacks cfg.beforeNotify notice
        if !cb.1 then (s, [])
        else
          let r := Client.queueNotice cfg env.transport s.client notice
          ({ s with client := r.2.1 }, r.2.2)

-- ===== Shared concrete values for witnesses and counterexamples =====

/-- A concrete error: class `Error`, message `boom`, no stack. -/
def errEx : JsError := { name := "Error", message := "boom", stack := none }

def occurredAtEx : String := "2026-01-01T00:00:00.000Z"

def noticeEx : Notice := createNotice errEx {} occurredAtEx

def payloadEx : NoticePayload := toPayload noticeEx

/-- A concrete configuration: valid key, all defaults, no browser window. -/
def cfgEx : Configuration := Configuration.create ⟨none⟩ { apiKey := "key" }

/-- A concrete network: `sendBeacon` available and accepting; `fetch` times out. -/
def tenvEx : TransportEnv :=
  { beacon := BeaconStatus.accepted, fetchOutcome := fun _ => FetchOutcome.abortTimeout }

def nenvEx : NotifyEnv :=
  { transport := tenvEx, sanitize := id, capturedRequest := [], occurredAt := occurredAtEx }

def sdkEx : SdkState :=
  { started := true, config := some cfgEx, hasClient := true,
    globalContext := [], globalUser := [], client := { queue := [], sending := false } }

-- ===== Claim theorems =====

/-- C5: every message strictly longer than 10,000 units normalizes to length
exactly 10,000 ending in the truncation marker `"..."`; every message of
length at most 10,000 is unchanged. -/
theorem truncateMessage_cap_spec (m : String) :
    (MAX_MESSAGE_LENGTH < m.length →
      (truncateMessage m).length = MAX_MESSAGE_LENGTH ∧
      "...".data <:+ (truncateMessage m).data) ∧
    (m.length ≤ MAX_MESSAGE_LENGTH → truncateMessage m = m) := by
  have hdata : m.length = m.data.length := rfl
  constructor
  · intro h
    have hm : m ≠ "" := by
      intro he
      rw [he] at h
      simp [MAX_MESSAGE_LENGTH, String.length] at h
    rw [truncateMessage, if_neg hm, if_neg (by omega)]
    refine ⟨?_, ⟨m.data.take (MAX_MESSAGE_LENGTH - 3), rfl⟩⟩
    show (m.data.take (MAX_MESSAGE_LENGTH - 3) ++ "...".data).length = MAX_MESSAGE_LENGTH
    rw [List.length_append, List.length_take]
    have h3 : "...".data.length = 3 := rfl
    rw [h3]
    rw [hdata] at h
    simp [MAX_MESSAGE_LENGTH] at h ⊢
    omega
  · intro h
    rw [truncateMessage]
    by_cases he : m = ""
    · rw [if_pos he, he]
    · rw [if_neg he, if_pos h]

/-- Witness for C5 at a 10,001-character message and at `"abc"`. -/
theorem truncateMessage_cap_spec_witness :
    (truncateMessage (String.mk (List.replicate 10001 'x'))).length = MAX_MESSAGE_LENGTH ∧
    truncateMessage "abc" = "abc" :=
  ⟨((truncateMessage_cap_spec (String.mk (List.replicate 10001 'x'))).1
      (by show MAX_MESSAGE_LENGTH < (List.replicate 10001 'x').length
          rw [List.length_replicate]
          decide)).1,
   (truncateMessage_cap_spec "abc").2 (by decide)⟩

/-- C4: the queue never exceeds the configured capacity (default 100); a full
queue rejects the new entry, dropping it without evicting, changing state, or
transmitting anything — so the rejected entry never reaches the output. -/
theorem queue_capacity_spec :
    (∀ benv options, options.maxQueueSize = none →
       (Configuration.create benv options).maxQueueSize = 100) ∧
    (∀ cfg env s n, s.queue.length ≤ cfg.maxQueueSize →
       (Client.queueNotice cfg env s n).2.1.queue.length ≤ cfg.maxQueueSize) ∧
    (∀ cfg env s n, cfg.maxQueueSize ≤ s.queue.length →
       Client.queueNotice cfg env s n = (false, s, [])) := by
  refine ⟨?_, ?_, ?_⟩
  · intro benv options h
    simp [Configuration.create, h]
  · intro cfg env s n h
    by_cases hfull : s.queue.length ≥ cfg.maxQueueSize
    · simp [Client.queueNotice, hfull]
      omega
    · rw [Client.queueNotice, if_neg hfull]
      by_cases hsend : s.sending
      · simp [Client.processQueue, hsend]
        omega
      · simp [Client.processQueue, hsend]
  · intro cfg env s n h
    rw [Client.queueNotice, if_pos h]

/-- Witness for C4: capacity 1, default capacity, and rejection at a full
queue, all at concrete values. -/
theorem queue_capacity_spec_witness :
    (Configuration.create ⟨none⟩ { apiKey := "key" }).maxQueueSize = 100 ∧
    (Client.queueNotice cfgEx tenvEx { queue := [], sending := false } noticeEx).2.1.queue.length
      ≤ cfgEx.maxQueueSize ∧
    Client.queueNotice (Configuration.create ⟨none⟩ { apiKey := "key", maxQueueSize := some 1 })
        tenvEx { queue := [payloadEx], sending := false } noticeEx
      = (false, { queue := [payloadEx], sending := false }, []) :=
  ⟨queue_capacity_spec.1 ⟨none⟩ { apiKey := "key" } rfl,
   queue_capacity_spec.2.1 cfgEx tenvEx { queue := [], sending := false } noticeEx (by decide),
   queue_capacity_spec.2.2 _ tenvEx { queue := [payloadEx], sending := false } noticeEx
     (by decide)⟩

/-- C3: the drain is single-flight (a trigger while `sending` is a no-op) and
strictly FIFO (the transmissions of a drain are exactly the queued payloads in
enqueue order, each sent once, sequentially by the single active drain). -/
theorem drain_single_flight_fifo :
    (∀ cfg env s, s.sending = true → Client.processQueue cfg env s = (s, [])) ∧
    (∀ cfg env s, s.sending = false →
       ((Client.processQueue cfg env s).2.map Transmission.payload = s.queue ∧
        (Client.processQueue cfg env s).1.queue = [])) ∧
    (∀ cfg env s p, s.sending = false →
       ((Client.processQueue cfg env s).2.map Transmission.payload).count p
         = s.queue.count p) := by
  have key : ∀ cfg env s, s.sending = false →
      (Client.processQueue cfg env s).2.map Transmission.payload = s.queue ∧
      (Client.processQueue cfg env s).1.queue = [] := by
    intro cfg env s h
    by_cases hq : s.queue.isEmpty
    · have : s.queue = [] := by
        cases hval : s.queue
        · rfl
        · rw [hval] at hq; simp [List.isEmpty] at hq
      simp [Client.processQueue, h, this]
    · rw [Client.processQueue]
      simp only [h, Bool.false_or]
      rw [if_neg (by simp [hq])]
      constructor
      · rw [List.map_map]
        exact List.map_id s.queue
      · rfl
  refine ⟨?_, key, ?_⟩
  · intro cfg env s h
    simp [Client.processQueue, h]
  · intro cfg env s p h
    rw [(key cfg env s h).1]

/-- Witness for C3: a concrete two-payload queue drains in order, and the same
trigger is a no-op while a drain is marked active. -/
theorem drain_single_flight_fifo_witness :
    Client.processQueue cfgEx tenvEx { queue := [payloadEx], sending := true }
      = ({ queue := [payloadEx], sending := true }, []) ∧
    (Client.processQueue cfgEx tenvEx
        { queue := [payloadEx, payloadEx], sending := false }).2.map Transmission.payload
      = [payloadEx, payloadEx] ∧
    ((Client.processQueue cfgEx tenvEx
        { queue := [payloadEx, payloadEx], sending := false }).2.map
          Transmission.payload).count payloadEx = 2 :=
  ⟨drain_single_flight_fifo.1 cfgEx tenvEx { queue := [payloadEx], sending := true } rfl,
   (drain_single_flight_fifo.2.1 cfgEx tenvEx
      { queue := [payloadEx, payloadEx], sending := false } rfl).1,
   by rw [drain_single_flight_fifo.2.2 cfgEx tenvEx
        { queue := [payloadEx, payloadEx], sending := false } payloadEx rfl]
      decide⟩

/-- C1 counterexample: with `sendBeacon` available, enabled by configuration,
and accepting, the synchronous `sendNotice` path does use the beacon transport,
but a pop of the queued drain loop transmits the same payload via the
confirmable `fetch` transport — the beacon-first selection does not hold for
drain-loop attempts, refuting the claim as stated. -/
theorem transport_selection_counterexample :
    cfgEx.useSendBeacon = true ∧
    trySendBeacon tenvEx.beacon = true ∧
    Client.sendNotice cfgEx tenvEx noticeEx
      = (none, [{ payload := payloadEx, transport := Transport.beacon }]) ∧
    Client.processQueue cfgEx tenvEx { queue := [payloadEx], sending := false }
      = ({ queue := [], sending := false },
         [{ payload := payloadEx, transport := Transport.fetchTransport }]) :=
  ⟨rfl, rfl, rfl, rfl⟩

/-- C1 amended: the beacon-first selection (beacon attempted first when
available and enabled, acceptance final with no fallback, fetch otherwise)
holds for the synchronous `sendNotice` path only; every transmission of the
queued drain loop uses the confirmable `fetch` transport. -/
theorem transport_selection_spec :
    (∀ cfg env n, (cfg.useSendBeacon && trySendBeacon env.beacon) = true →
       Client.sendNotice cfg env n
         = (none, [{ payload := toPayload n, transport := Transport.beacon }])) ∧
    (∀ cfg env n, (cfg.useSendBeacon && trySendBeacon env.beacon) = false →
       Client.sendNotice cfg env n
         = ((sendViaFetch cfg.debug (env.fetchOutcome (toPayload n))).1,
            [{ payload := toPayload n, transport := Transport.fetchTransport }])) ∧
    (∀ cfg env s t, t ∈ (Client.processQueue cfg env s).2 →
       t.transport = Transport.fetchTransport) := by
  refine ⟨?_, ?_, ?_⟩
  · intro cfg env n h
    rw [Client.sendNotice, if_pos h]
  · intro cfg env n h
    rw [Client.sendNotice, if_neg (by simp [h])]
  · intro cfg env s t ht
    rw [Client.processQueue] at ht
    by_cases hguard : s.sending || s.queue.isEmpty
    · rw [if_pos hguard] at ht
      simp at ht
    · rw [if_neg hguard] at ht
      simp at ht
      obtain ⟨p, _, hp⟩ := ht
      rw [← hp]

/-- Witness for C1 (amended): beacon acceptance completes `sendNotice`; with
the beacon disabled `sendNotice` falls back to `fetch`; a concrete drain-loop
transmission uses `fetch`. -/
theorem transport_selection_spec_witness :
    Client.sendNotice cfgEx tenvEx noticeEx
      = (none, [{ payload := payloadEx, transport := Transport.beacon }]) ∧
    Client.sendNotice (Configuration.create ⟨none⟩ { apiKey := "key", useSendBeacon := some false })
        tenvEx noticeEx
      = (none, [{ payload := payloadEx, transport := Transport.fetchTransport }]) ∧
    ({ payload := payloadEx, transport := Transport.fetchTransport } : Transmission).transport
      = Transport.fetchTransport :=
  ⟨transport_selection_spec.1 cfgEx tenvEx noticeEx rfl,
   transport_selection_spec.2.1
     (Configuration.create ⟨none⟩ { apiKey := "key", useSendBeacon := some false })
     tenvEx noticeEx rfl,
   transport_selection_spec.2.2 cfgEx tenvEx { queue := [payloadEx], sending := false }
     { payload := payloadEx, transport := Transport.fetchTransport }
     (by exact List.mem_singleton.mpr rfl)⟩

/-- A concrete error whose message is on the default ignore-list. -/
def ignoredErrEx : JsError :=
  { name := "Error", message := "ResizeObserver loop limit exceeded", stack := none }

/-- C2 counterexample: for an error whose message matches the configured
ignore-list, `notify` skips silently after the ignore check, but `notifySync`
performs no ignore-list check at all (its event trace never contains one) and
still delivers — one transmission attempt occurs — refuting the claim that
both entry points check the ignore-list before delivery. -/
theorem notifySync_ignore_counterexample :
    cfgEx.shouldIgnore "Error" "ResizeObserver loop limit exceeded" = true ∧
    notify nenvEx sdkEx ignoredErrEx {}
      = (sdkEx, [], [Step.checkedActive, Step.checkedIgnore]) ∧
    (notifySync nenvEx sdkEx ignoredErrEx {}).2.1.length = 1 ∧
    Step.checkedIgnore ∉ (notifySync nenvEx sdkEx ignoredErrEx {}).2.2 := by
  refine ⟨rfl, rfl, rfl, ?_⟩
  intro hmem
  have : (notifySync nenvEx sdkEx ignoredErrEx {}).2.2
      = [Step.checkedActive, Step.sanitized, Step.normalized,
         Step.ranCallbacks, Step.sentSync] := rfl
  rw [this] at hmem
  simp at hmem

/-- C2 amended: `notify` checks the error's class/message against the
ignore-list right after the active-state gate and before sanitization,
normalization, interceptors, or delivery, skipping silently on a match;
`notifySync` performs no ignore-list check and proceeds to sanitize,
normalize, and send (exactly one transmission attempt) even when the error
matches the ignore-list. -/
theorem ignore_check_spec :
    (∀ env s cfg error options, s.config = some cfg → shouldNotify s = true →
       cfg.shouldIgnore (if error.name = "" then "Error" else error.name)
         (if error.message = "" then "Unknown error" else error.message) = true →
       notify env s error options = (s, [], [Step.checkedActive, Step.checkedIgnore])) ∧
    (∀ env s error options, Step.checkedIgnore ∉ (notifySync env s error options).2.2) ∧
    (∀ env s cfg error options, s.config = some cfg → shouldNotify s = true →
       cfg.beforeNotify = [] →
       (notifySync env s error options).2.1.length = 1) := by
  refine ⟨?_, ?_, ?_⟩
  · intro env s cfg error options hcfg hgate hign
    rw [notify, if_neg (by rw [hgate]; simp), hcfg]
    simp only [hign, if_pos]
  · intro env s error options
    rw [notifySync]
    by_cases hgate : shouldNotify s
    · rw [if_neg (by simp [hgate])]
      cases hcfg : s.config with
      | none => simp
      | some cfg =>
        split
        · simp
        · dsimp only []
          split <;> simp
    · rw [if_pos (by simp [hgate])]
      simp
  · intro env s cfg error options hcfg hgate hcb
    rw [notifySync, if_neg (by rw [hgate]; simp), hcfg]
    simp only [hcb, runBeforeNotifyCallbacks]
    rw [if_neg (by simp)]
    rw [Client.sendNotice]
    split
    · rfl
    · rfl

/-- Witness for C2 (amended) at the concrete ignored error and default
configuration. -/
theorem ignore_check_spec_witness :
    notify nenvEx sdkEx ignoredErrEx {}
      = (sdkEx, [], [Step.checkedActive, Step.checkedIgnore]) ∧
    Step.checkedIgnore ∉ (notifySync nenvEx sdkEx ignoredErrEx {}).2.2 ∧
    (notifySync nenvEx sdkEx ignoredErrEx {}).2.1.length = 1 :=
  ⟨ignore_check_spec.1 nenvEx sdkEx cfgEx ignoredErrEx {} rfl rfl (by decide),
   ignore_check_spec.2.1 nenvEx sdkEx ignoredErrEx {},
   ignore_check_spec.2.2 nenvEx sdkEx cfgEx ignoredErrEx {} rfl rfl rfl⟩

/-- C6: a delivery attempt via the confirmable transport returns the parsed
structured acknowledgment exactly on HTTP 201; every other status and every
transport-level failure (timeout abort, network error) yields `none` — the
embedding is a total function, so no exception ever reaches the caller. -/
theorem delivery_outcome_spec :
    (∀ debug r, r.status = 201 →
       (sendViaFetch debug (FetchOutcome.response r)).1 = some r.body) ∧
    (∀ debug r, r.status ≠ 201 →
       (sendViaFetch debug (FetchOutcome.response r)).1 = none) ∧
    (∀ debug, (sendViaFetch debug FetchOutcome.abortTimeout).1 = none) ∧
    (∀ debug e, (sendViaFetch debug (FetchOutcome.networkError e)).1 = none) := by
  refine ⟨?_, ?_, ?_, ?_⟩
  · intro debug r h
    simp [sendViaFetch, handleResponse, h]
  · intro debug r h
    simp [sendViaFetch, handleResponse, h]
  · intro debug
    rfl
  · intro debug e
    rfl

/-- Witness for C6 at concrete responses: 201 parses the acknowledgment;
400, 429 and 500 yield `none`; the timeout and a network error yield `none`. -/
theorem delivery_outcome_spec_witness :
    (sendViaFetch false (FetchOutcome.response
        { status := 201, body := { id := 7, problem_id := 9 }, text := "" })).1
      = some { id := 7, problem_id := 9 } ∧
    (sendViaFetch false (FetchOutcome.response
        { status := 400, body := { id := 0, problem_id := 0 }, text := "bad" })).1 = none ∧
    (sendViaFetch false (FetchOutcome.response
        { status := 429, body := { id := 0, problem_id := 0 }, text := "" })).1 = none ∧
    (sendViaFetch false (FetchOutcome.response
        { status := 503, body := { id := 0, problem_id := 0 }, text := "down" })).1 = none ∧
    (sendViaFetch false FetchOutcome.abortTimeout).1 = none ∧
    (sendViaFetch false (FetchOutcome.networkError "offline")).1 = none :=
  ⟨delivery_outcome_spec.1 false _ rfl,
   delivery_outcome_spec.2.1 false _ (by decide),
   delivery_outcome_spec.2.1 false _ (by decide),
   delivery_outcome_spec.2.1 false _ (by decide),
   delivery_outcome_spec.2.2.1 false,
   delivery_outcome_spec.2.2.2 false "offline"⟩

/-- Number of callbacks in `callbacks` that raise on `n` (each logs one
warning when run). -/
def throwCount (callbacks : List BeforeNotifyCallback) (n : Notice) : Nat :=
  match callbacks with
  | [] => 0
  | f :: rest =>
    match f n with
    | CbResult.threw _ => throwCount rest n + 1
    | _ => throwCount rest n

/-- Running a prefix of non-vetoing callbacks invokes each of them in order
and then continues with the rest. -/
theorem runCallbacks_append_of_no_veto (pre rest : List BeforeNotifyCallback) (n : Notice)
    (h : ∀ f ∈ pre, f n ≠ CbResult.vetoFalse) :
    runBeforeNotifyCallbacks (pre ++ rest) n
      = ((runBeforeNotifyCallbacks rest n).1,
         pre.length + (runBeforeNotifyCallbacks rest n).2.1,
         throwCount pre n + (runBeforeNotifyCallbacks rest n).2.2) := by
  induction pre with
  | nil => simp [throwCount]
  | cons f pre ih =>
    have hf : f n ≠ CbResult.vetoFalse := h f (List.mem_cons_self f pre)
    have hpre : ∀ g ∈ pre, g n ≠ CbResult.vetoFalse :=
      fun g hg => h g (List.mem_cons_of_mem f hg)
    rw [List.cons_append, runBeforeNotifyCallbacks]
    cases hfn : f n with
    | vetoFalse => exact absurd hfn hf
    | pass =>
      dsimp only []
      rw [ih hpre]
      have ht : throwCount (f :: pre) n = throwCount pre n := by
        simp [throwCount, hfn]
      rw [ht]
      refine Prod.ext rfl (Prod.ext ?_ ?_)
      · dsimp only []
        rw [List.length_cons]
        omega
      · dsimp only []
    | threw e =>
      dsimp only []
      rw [ih hpre]
      have ht : throwCount (f :: pre) n = throwCount pre n + 1 := by
        simp [throwCount, hfn]
      rw [ht]
      refine Prod.ext rfl (Prod.ext ?_ ?_)
      · dsimp only []
        rw [List.length_cons]
        omega
      · dsimp only []
        omega

/-- C7: callbacks run in registration (list) order; the first callback
returning the explicit value `false` halts with a veto after exactly
`pre.length + 1` invocations, skipping all remaining callbacks; a raising
callback is caught, logs one warning, does not veto, and the callbacks after
it still run. -/
theorem interceptor_spec :
    (∀ pre post n c, (∀ f ∈ pre, f n ≠ CbResult.vetoFalse) → c n = CbResult.vetoFalse →
       runBeforeNotifyCallbacks (pre ++ c :: post) n
         = (false, pre.length + 1, throwCount pre n)) ∧
    (∀ pre post n e, (∀ f ∈ pre, f n ≠ CbResult.vetoFalse) →
       runBeforeNotifyCallbacks (pre ++ (fun _ => CbResult.threw e) :: post) n
         = ((runBeforeNotifyCallbacks post n).1,
            pre.length + 1 + (runBeforeNotifyCallbacks post n).2.1,
            throwCount pre n + 1 + (runBeforeNotifyCallbacks post n).2.2)) := by
  constructor
  · intro pre post n c hpre hc
    rw [runCallbacks_append_of_no_veto pre (c :: post) n hpre]
    rw [runBeforeNotifyCallbacks, hc]
    dsimp only []
    exact Prod.ext rfl (Prod.ext rfl rfl)
  · intro pre post n e hpre
    rw [runCallbacks_append_of_no_veto pre ((fun _ => CbResult.threw e) :: post) n hpre]
    rw [runBeforeNotifyCallbacks]
    dsimp only []
    refine Prod.ext rfl (Prod.ext ?_ ?_)
    · dsimp only []
      omega
    · dsimp only []
      omega

/-- Witness for C7: a passing callback followed by a vetoing one and a later
(skipped) one; and a raising callback between two passing ones. -/
theorem interceptor_spec_witness :
    runBeforeNotifyCallbacks
        [fun _ => CbResult.pass, fun _ => CbResult.vetoFalse, fun _ => CbResult.pass] noticeEx
      = (false, 2, 0) ∧
    runBeforeNotifyCallbacks
        [fun _ => CbResult.pass, fun _ => CbResult.threw "boom", fun _ => CbResult.pass] noticeEx
      = (true, 3, 1) := by
  constructor
  · have h := interceptor_spec.1 [fun _ => CbResult.pass] [fun _ => CbResult.pass] noticeEx
      (fun _ => CbResult.vetoFalse)
      (by intro f hf
          rw [List.mem_singleton] at hf
          rw [hf]
          decide)
      rfl
    rw [List.singleton_append] at h
    rw [h]
    rfl
  · have h := interceptor_spec.2 [fun _ => CbResult.pass] [fun _ => CbResult.pass] noticeEx "boom"
      (by intro f hf
          rw [List.mem_singleton] at hf
          rw [hf]
          decide)
    rw [List.singleton_append] at h
    rw [h]
    rfl

/-- A positive-length take of a non-empty list is non-empty. -/
theorem take_ne_nil_of_ne_nil {α : Type} (l : List α) (n : Nat) (h : l ≠ []) (hn : 0 < n) :
    l.take n ≠ [] := by
  cases l with
  | nil => exact absurd rfl h
  | cons a t =>
    cases n with
    | zero => omega
    | succ m => simp [List.take]

/-- `isEmpty` is `false` on a non-empty list. -/
theorem isEmpty_false_of_ne_nil {α : Type} {l : List α} (h : l ≠ []) : l.isEmpty = false := by
  cases l with
  | nil => exact absurd rfl h
  | cons a t => rfl

/-- C8: backtrace derivation — a missing or empty stack yields `[]`; when some
line carries a frame marker, the backtrace is exactly the frame-marker lines,
trimmed, capped at 100; when none does, it is the non-empty trimmed forms of
the first 100 lines; the result never exceeds 100 frames; and the raw entry
point synthesizes the single `"<source>:<line>:<column>"` frame when only a
location is available, or `[]` when nothing is. -/
theorem backtrace_derivation_spec :
    (parseBacktrace none = []) ∧
    (parseBacktrace (some "") = []) ∧
    (∀ stack, (parseBacktrace stack).length ≤ MAX_BACKTRACE_LINES) ∧
    (∀ stack, stack ≠ "" → (splitLines stack).any isFrameLine = true →
       parseBacktrace (some stack)
         = (((splitLines stack).filter isFrameLine).map trimString).take
             MAX_BACKTRACE_LINES) ∧
    (∀ stack, stack ≠ "" → (splitLines stack).any isFrameLine = false →
       parseBacktrace (some stack)
         = (((splitLines stack).take MAX_BACKTRACE_LINES).map trimString).filter
             (fun l => l != "")) ∧
    (∀ message src lineno colno options occurredAt, src ≠ "" →
       (createNoticeFromRaw message (some src) lineno colno none options occurredAt).backtrace
         = [src ++ ":" ++ toString (lineno.getD 0) ++ ":" ++ toString (colno.getD 0)]) ∧
    (∀ message options occurredAt,
       (createNoticeFromRaw message none none none none options occurredAt).backtrace = []) := by
  refine ⟨rfl, rfl, ?_, ?_, ?_, ?_, ?_⟩
  · intro stack
    match stack with
    | none => simp [parseBacktrace, MAX_BACKTRACE_LINES]
    | some s =>
      simp only [parseBacktrace]
      by_cases hne : s = ""
      · rw [if_pos hne]
        simp [MAX_BACKTRACE_LINES]
      · rw [if_neg hne]
        split
        · calc ((((splitLines s).take MAX_BACKTRACE_LINES).map trimString).filter
                  (fun l => l != "")).length
              ≤ (((splitLines s).take MAX_BACKTRACE_LINES).map trimString).length :=
                List.length_filter_le _ _
            _ = ((splitLines s).take MAX_BACKTRACE_LINES).length := List.length_map _ _
            _ ≤ MAX_BACKTRACE_LINES := List.length_take_le _ _
        · exact List.length_take_le _ _
  · intro stack hne hany
    have hfil : (splitLines stack).filter isFrameLine ≠ [] := by
      intro h0
      obtain ⟨x, hx, hpx⟩ := List.any_eq_true.mp hany
      exact (List.filter_eq_nil_iff.mp h0 x hx) hpx
    have hmap : ((splitLines stack).filter isFrameLine).map trimString ≠ [] := by
      intro h0
      exact hfil (List.map_eq_nil_iff.mp h0)
    have htake := take_ne_nil_of_ne_nil _ MAX_BACKTRACE_LINES hmap (by decide)
    simp only [parseBacktrace]
    rw [if_neg hne]
    rw [isEmpty_false_of_ne_nil htake]
    simp
  · intro stack hne hany
    have hfil : (splitLines stack).filter isFrameLine = [] :=
      List.filter_eq_nil_iff.mpr (List.any_eq_false.mp hany)
    simp only [parseBacktrace]
    rw [if_neg hne]
    rw [hfil]
    simp
  · intro message src lineno colno options occurredAt hsrc
    simp [createNoticeFromRaw, hsrc]
  · intro message options occurredAt
    rfl

/-- Witness for C8 at a concrete Chrome-style stack, a stack with no frame
markers, and a raw location. -/
theorem backtrace_derivation_spec_witness :
    (parseBacktrace (some "Error: boom\n    at f (app.js:1:2)\n    at g (app.js:3:4)")).length
      ≤ MAX_BACKTRACE_LINES ∧
    parseBacktrace (some "Error: boom\n    at f (app.js:1:2)\n    at g (app.js:3:4)")
      = ["at f (app.js:1:2)", "at g (app.js:3:4)"] ∧
    parseBacktrace (some "first line\nsecond line\n")
      = ["first line", "second line"] ∧
    (createNoticeFromRaw "boom" (some "app.js") (some 42) (some 10) none {}
        occurredAtEx).backtrace = ["app.js:42:10"] := by
  refine ⟨backtrace_derivation_spec.2.2.1
            (some "Error: boom\n    at f (app.js:1:2)\n    at g (app.js:3:4)"), ?_, ?_, ?_⟩
  · rw [backtrace_derivation_spec.2.2.2.1
        "Error: boom\n    at f (app.js:1:2)\n    at g (app.js:3:4)"
        (by decide) (by decide)]
    rfl
  · rw [backtrace_derivation_spec.2.2.2.2.1 "first line\nsecond line\n"
        (by decide) (by decide)]
    rfl
  · exact backtrace_derivation_spec.2.2.2.2.2.1 "boom" "app.js" (some 42) (some 10) {}
      occurredAtEx (by decide)

/-- C9: when the `enabled` option is not provided, the SDK is enabled exactly
when the resolved environment is `production` or `staging`; in particular a
`localhost` hostname resolves to `development` and disables it; a disabled
configuration makes the gate fail, and with a failed gate `notify`,
`notifySync` and the unhandled-signal handlers are silent no-ops performing
zero transmissions, regardless of the API key. -/
theorem enabled_environment_spec :
    (∀ benv options, options.enabled = none →
       ((Configuration.create benv options).enabled = true ↔
         ((Configuration.create benv options).environment = "production" ∨
          (Configuration.create benv options).environment = "staging"))) ∧
    (∀ options, options.enabled = none → options.environment = none →
       (Configuration.create ⟨some "localhost"⟩ options).enabled = false) ∧
    (∀ s cfg, s.config = some cfg → cfg.enabled = false → shouldNotify s = false) ∧
    (∀ env s, shouldNotify s = false →
       (∀ error options, notify env s error options = (s, [], [Step.checkedActive])) ∧
       (∀ error options,
          notifySync env s error options = (none, [], [Step.checkedActive])) ∧
       (∀ message src lineno colno error,
          handleUnhandledError env s message src lineno colno error = (s, [])) ∧
       (∀ reason, handleUnhandledRejection env s reason = (s, []))) := by
  refine ⟨?_, ?_, ?_, ?_⟩
  · intro benv options h
    rw [Configuration.enabled]
    have : (Configuration.create benv options)._enabled = none := h
    rw [this]
    rw [Configuration.isProductionOrStaging]
    simp [List.contains]
  · intro options h1 h2
    rw [Configuration.enabled]
    have he : (Configuration.create ⟨some "localhost"⟩ options)._enabled = none := h1
    rw [he]
    have henv : (Configuration.create ⟨some "localhost"⟩ options).environment
        = "development" := by
      show options.environment.getD (detectEnvironment ⟨some "localhost"⟩) = _
      rw [h2]
      rfl
    rw [Configuration.isProductionOrStaging, henv]
    rfl
  · intro s cfg hcfg hdis
    rw [shouldNotify, hcfg]
    simp [hdis]
  · intro env s h
    refine ⟨?_, ?_, ?_, ?_⟩
    · intro error options
      rw [notify, if_pos (by rw [h]; rfl)]
    · intro error options
      rw [notifySync, if_pos (by rw [h]; rfl)]
    · intro message src lineno colno error
      rw [handleUnhandledError, if_pos (by rw [h]; rfl)]
    · intro reason
      rw [handleUnhandledRejection.eq_def, if_pos (by rw [h]; rfl)]

/-- A configuration built with no `enabled` option on a `localhost` host. -/
def cfgDev : Configuration := Configuration.create ⟨some "localhost"⟩ { apiKey := "key" }

/-- An SDK state configured on `localhost` with a valid key and started. -/
def sdkDev : SdkState :=
  { started := true, config := some cfgDev, hasClient := true,
    globalContext := [], globalUser := [], client := { queue := [], sending := false } }

/-- Witness for C9: on `localhost` with a valid API key and no `enabled`
option, the configuration is disabled, the gate fails, and all four entry
points are no-ops. -/
theorem enabled_environment_spec_witness :
    cfgDev.enabled = false ∧
    shouldNotify sdkDev = false ∧
    cfgDev.isValid = true ∧
    notify nenvEx sdkDev errEx {} = (sdkDev, [], [Step.checkedActive]) ∧
    notifySync nenvEx sdkDev errEx {} = (none, [], [Step.checkedActive]) ∧
    handleUnhandledError nenvEx sdkDev "boom" none none none none = (sdkDev, []) ∧
    handleUnhandledRejection nenvEx sdkDev RejectionReason.otherReason = (sdkDev, []) := by
  have hdis : cfgDev.enabled = false :=
    enabled_environment_spec.2.1 { apiKey := "key" } rfl rfl
  have hgate : shouldNotify sdkDev = false :=
    enabled_environment_spec.2.2.1 sdkDev cfgDev rfl hdis
  have hnoop := enabled_environment_spec.2.2.2 nenvEx sdkDev hgate
  exact ⟨hdis, hgate, rfl, hnoop.1 errEx {}, hnoop.2.1 errEx {},
         hnoop.2.2.1 "boom" none none none none, hnoop.2.2.2 RejectionReason.otherReason⟩

/-- C10: every constructed configuration prepends the built-in defaults to the
user-supplied ignore-list and sensitive-key list; consequently the two
ResizeObserver messages and any message matching `/^Script error\.?$/` are
always ignored, and `password`, `token`, `authorization` are always in the
filter set, whatever the options. -/
theorem defaults_prepended_spec :
    (∀ benv options,
       (Configuration.create benv options).ignoredExceptions
         = DEFAULT_IGNORED_EXCEPTIONS ++ options.ignoredExceptions.getD [] ∧
       (Configuration.create benv options).filterKeys
         = DEFAULT_FILTER_KEYS ++ options.filterKeys.getD []) ∧
    (∀ benv options errorClass,
       (Configuration.create benv options).shouldIgnore errorClass
         "ResizeObserver loop limit exceeded" = true ∧
       (Configuration.create benv options).shouldIgnore errorClass
         "ResizeObserver loop completed with undelivered notifications" = true ∧
       (Configuration.create benv options).shouldIgnore errorClass "Script error" = true ∧
       (Configuration.create benv options).shouldIgnore errorClass "Script error." = true) ∧
    (∀ benv options,
       "password" ∈ (Configuration.create benv options).filterKeys ∧
       "token" ∈ (Configuration.create benv options).filterKeys ∧
       "authorization" ∈ (Configuration.create benv options).filterKeys) := by
  refine ⟨?_, ?_, ?_⟩
  · intro benv options
    exact ⟨rfl, rfl⟩
  · intro benv options errorClass
    refine ⟨?_, ?_, ?_, ?_⟩ <;>
      simp [Configuration.shouldIgnore, Configuration.create, DEFAULT_IGNORED_EXCEPTIONS,
            IgnorePattern.matches, scriptErrorRegexTest]
  · intro benv options
    refine ⟨?_, ?_, ?_⟩ <;>
      simp [Configuration.create, DEFAULT_FILTER_KEYS]

end Checkend
